import Mathlib

/-!
Verification of the esp_dmx DMX512/RDM driver stack.

The definitions below are a shallow embedding of the driver's source:

* `dmx_rx_event_check` embeds the "check if an event needs to be sent"
  block of `dmx_intr_handler` (src/src/impl/intr_handlers.h, RX_DATA branch),
  including the RDM packet-length completion test, the DISC_UNIQUE_BRANCH
  preamble scan, the Manchester pair decoding and the checksum comparison.
* `rdm_pd_get_size`, `rdm_pd_encode`, `rdm_pd_serialize`, `rdm_pd_deserialize`
  embed the parameter-data serializer of src/src/rdm/utils/pd.c.
* `discSplitStep` embeds the interval split of `rdm_discover_with_callback`
  (src/src/esp_rdm.c).
* `dmx_set_break_len`, `dmx_set_mab_len`, `dmx_set_baud_rate` embed the
  timing clamps of the port driver (src/unnamed/part_000, i.e. driver.c).
* `rdm_get_uid` embeds the controller-side UID derivation of src/src/esp_rdm.c
  and `dmx_driver_install_uid_init` the install-time initialisation of the
  process-wide UID (src/unnamed/part_000).
* `rdm_pd_add_new` / `rdm_pd_add_alias` / `rdm_pd_add_deterministic` /
  `rdm_pd_set` / `rdm_pd_set_and_queue` embed the parameter store of
  src/src/rdm/utils/pd.c over an explicit driver state.

Machine integers are modelled as `Nat` with explicit `% 2^w` where overflow
can matter.  Buffers are `List Nat` of byte values; a read past the bytes
received so far returns the residual value 0, matching a zero-initialised
driver buffer.
-/

namespace EspDmx

/-! ## Wire-protocol constants

The numeric values of these macros live in headers that are not part of the
source snapshot (`esp_dmx.h`, `rdm_constants.h`).  Modelled from the spec:
start code 0xCC with sub-start-code 0x01 and the message length in byte 2;
discovery responses use 0..7 bytes of 0xFE preamble, a 0xAA delimiter and
16 encoded bytes (so 17 bytes past the preamble). -/

def RDM_SC : Nat := 0xCC

def RDM_SUB_SC : Nat := 0x01

def RDM_MESSAGE_LEN_INDEX : Nat := 2

def RDM_PREAMBLE : Nat := 0xFE

def RDM_DELIMITER : Nat := 0xAA

def RDM_PREAMBLE_MAX_LEN : Nat := 7

def RDM_DISCOVERY_RESP_LEN : Nat := 17

/-- Byte read from the driver buffer: `buffer[i]`.  Reads past the packet
data return 0 (the buffer is zero-initialised at install). -/
def bufAt (buf : List Nat) (i : Nat) : Nat := buf.getD i 0

/-- The `SWAP16` macro of intr_handlers.h:
`((uint16_t)x << 8 | (uint16_t)x >> 8)`, truncated to 16 bits on
assignment.  Note it is a macro on a *value*: applied to a single byte it
yields `x << 8`. -/
def SWAP16 (x : Nat) : Nat := (((x % 65536) <<< 8) ||| ((x % 65536) >>> 8)) % 65536

/-- `uidcpy`: reads a most-significant-byte-first 6-byte UID into a 48-bit
value (intr_handlers.h). -/
def uidcpy (b : List Nat) : Nat :=
  bufAt b 0 <<< 40 ||| bufAt b 1 <<< 32 ||| bufAt b 2 <<< 24 |||
  bufAt b 3 <<< 16 ||| bufAt b 4 <<< 8 ||| bufAt b 5

/-- Status codes carried by the events the ISR posts to the receive queue. -/
inductive DmxStatus where
  | ok
  | errInvalidChecksum
  deriving DecidableEq, Repr

/-- The fields of `dmx_event_t` that the RX_DATA classifier fills in. -/
structure DmxEvent where
  status : DmxStatus
  is_rdm : Bool
  size : Nat
  source_uid : Nat := 0
  deriving DecidableEq, Repr

/-- Preamble scan of the discovery branch:
`for (preamble_len = 0; preamble_len <= 7; ++preamble_len) if (buffer[preamble_len] == RDM_DELIMITER) break;`
yields the first index `≤ 7` holding the delimiter, or 8 when none does. -/
def dmxPreambleLen (buf : List Nat) : Nat :=
  (((List.range (RDM_PREAMBLE_MAX_LEN + 1)).find?
      (fun i => bufAt buf i == RDM_DELIMITER)).getD (RDM_PREAMBLE_MAX_LEN + 1))

/-- The "Check if an event needs to be sent" block of the RX_DATA branch of
`dmx_intr_handler` (intr_handlers.h lines 192-275), as a function of the
buffer contents, `slot_idx` and the rolling `rx.size_guess`.  Returns the
event posted to the queue, or `none` when no event is sent.
`buffer[i] & ~0xaa` is `buffer[i] &&& 0x55` and `buffer[i+1] & ~0x55` is
`buffer[i+1] &&& 0xAA` for byte values. -/
def dmx_rx_event_check (buf : List Nat) (slot_idx : Nat) (size_guess : Nat) :
    Option DmxEvent :=
  let sc := bufAt buf 0
  if sc == RDM_SC && slot_idx > RDM_MESSAGE_LEN_INDEX then
    -- Received a standard RDM packet and its message length slot.
    if slot_idx == bufAt buf RDM_MESSAGE_LEN_INDEX + 2 then
      -- TODO in the source: verify checksum.  The event is posted with
      -- status DMX_OK without any checksum computation.
      some { status := .ok, is_rdm := true, size := slot_idx }
    else none
  else if (sc == RDM_PREAMBLE || sc == RDM_DELIMITER) &&
      slot_idx > RDM_DISCOVERY_RESP_LEN then
    -- Received an RDM DISC_UNIQUE_BRANCH response.
    let preamble_len := dmxPreambleLen buf
    if slot_idx == preamble_len + RDM_DISCOVERY_RESP_LEN then
      let data_start := preamble_len + 1
      -- decoded_data[j] = (buffer[i] & ~0xaa) | (buffer[i+1] & ~0x55)
      let decoded := (List.range 8).map (fun j =>
        (bufAt buf (data_start + 2 * j) &&& 0x55) |||
        (bufAt buf (data_start + 2 * j + 1) &&& 0xAA))
      -- Calculate the checksum (sum the first 12 bytes) and compare
      let calculated_sum :=
        (((List.range 12).map (fun i => bufAt buf (data_start + i))).sum) % 65536
      let checksum := SWAP16 (decoded.getD 6 0)
      if calculated_sum == checksum then
        some { status := .ok, is_rdm := true, size := slot_idx,
               source_uid := uidcpy decoded }
      else
        some { status := .errInvalidChecksum, is_rdm := true, size := slot_idx }
    else none
  else if slot_idx == size_guess then
    -- Received a non-RDM packet (we can assume it's DMX)
    some { status := .ok, is_rdm := false, size := slot_idx }
  else none

/-- Modelled from the spec: an RDM packet of `size` bytes is checksum-valid
when the 16-bit unsigned sum of its first `size - 2` bytes equals the
big-endian 16-bit checksum stored in its last two bytes. -/
def spec_rdm_checksum_ok (buf : List Nat) (size : Nat) : Bool :=
  decide (2 ≤ size) &&
  ((((List.range (size - 2)).map (fun i => bufAt buf i)).sum) % 65536
    == (bufAt buf (size - 2)) <<< 8 ||| bufAt buf (size - 1))

/-- Modelled from the spec: a DISC_UNIQUE_BRANCH response with preamble
length `plen` is checksum-valid when the 16-bit sum of the 12 encoded wire
bytes forming the UID equals the full decoded 16-bit checksum, whose high
byte is decoded from wire bytes 12-13 and low byte from wire bytes 14-15
of the data area. -/
def spec_disc_checksum_ok (buf : List Nat) (plen : Nat) : Bool :=
  let ds := plen + 1
  let dec := fun i =>
    (bufAt buf (ds + i) &&& 0x55) ||| (bufAt buf (ds + i + 1) &&& 0xAA)
  ((((List.range 12).map (fun i => bufAt buf (ds + i))).sum) % 65536)
    == ((dec 12) <<< 8 ||| dec 14)

/-- C1: the receive path does declare an RDM packet (start code 0xCC)
complete when `slot_idx` reaches `buffer[2] + 2`, but it posts the
completion event with status DMX_OK without verifying the checksum (the
verification is an unimplemented TODO at intr_handlers.h:198).  On the
5-byte packet CC 01 03 00 00, whose stored checksum 0x0000 differs from
the sum 0x00D0 of its first three bytes, the ISR still reports DMX_OK
instead of a checksum error. -/
theorem c1_rdm_checksum_not_verified :
    dmx_rx_event_check [0xCC, 0x01, 0x03, 0x00, 0x00] 5 100 =
      some { status := .ok, is_rdm := true, size := 5 } ∧
    spec_rdm_checksum_ok [0xCC, 0x01, 0x03, 0x00, 0x00] 5 = false := by
  constructor
  · rfl
  · rfl

/-- C2: the discovery-response checksum comparison uses
`SWAP16((uint16_t)decoded_data[6])`, i.e. only the *high* decoded checksum
byte shifted left by 8; the low byte `decoded_data[7]` is ignored.  The
wire bytes below are the correct encoding of UID 0000:00000001 with a
1-byte preamble: the decoded 16-bit checksum 0x05FB equals the sum of the
12 encoded UID bytes, so the spec accepts the packet, yet the ISR posts
DMX_ERR_INVALID_CHECKSUM because it compares the sum against 0x0500. -/
theorem c2_disc_checksum_low_byte_ignored :
    dmx_rx_event_check
      [0xFE, 0xAA, 0xAA, 0x55, 0xAA, 0x55, 0xAA, 0x55, 0xAA, 0x55, 0xAA, 0x55,
       0xAB, 0x55, 0xAF, 0x55, 0xFB, 0xFF] 18 100 =
      some { status := .errInvalidChecksum, is_rdm := true, size := 18 } ∧
    spec_disc_checksum_ok
      [0xFE, 0xAA, 0xAA, 0x55, 0xAA, 0x55, 0xAA, 0x55, 0xAA, 0x55, 0xAA, 0x55,
       0xAB, 0x55, 0xAF, 0x55, 0xFB, 0xFF] 1 = true := by
  constructor
  · rfl
  · rfl

/-! ## Parameter-data serializer (src/src/rdm/utils/pd.c)

The format string is modelled as a `List Char`; the C string's NUL
terminator corresponds to the end of the list, and a read past the end
yields `'\x00'`.  Source and destination buffers are byte lists; the host
is little-endian (ESP32), so a `memcpy` of a `uint16_t`/`uint32_t`
reads/writes least-significant byte first, and `bswap16`/`bswap32`
reverse the byte order.  Modelled from the spec: `rdm_uid_t` is a packed
pair of 16-bit manufacturer id and 32-bit device id, 6 bytes in all. -/

def isHexDigitChar (c : Char) : Bool :=
  c.isDigit || ('a' ≤ c && c ≤ 'f') || ('A' ≤ c && c ≤ 'F')

def hexDigitVal (c : Char) : Nat :=
  if c.isDigit then c.toNat - '0'.toNat
  else if 'a' ≤ c && c ≤ 'f' then c.toNat - 'a'.toNat + 10
  else if 'A' ≤ c && c ≤ 'F' then c.toNat - 'A'.toNat + 10
  else 0

/-- Value parsed by `strtol(format, &end_ptr, 16)` from the leading hex
digits, as a 64-bit quantity. -/
def hexValue (ds : List Char) : Nat :=
  ds.foldl (fun a c => (a * 16 + hexDigitVal c) % 2 ^ 64) 0

/-- `rdm_pd_get_size`: walks the format string accumulating the byte size
of one parameter instance; returns 0 for an invalid format or a parameter
larger than 231 bytes.  In the `'#'` case the C code skips the hex literal
plus one terminator character.  The fuel argument only serves structural
termination; every step strictly shortens the format list, so
`fmt.length + 1` is always enough. -/
def rdm_pd_get_size_go : Nat → List Char → Nat → Nat
  | 0, _, _ => 0
  | _ + 1, [], param_size => param_size
  | fuel + 1, c :: rest, param_size =>
    let step : Option (Nat × List Char) :=
      if c == 'b' || c == 'B' then some (1, rest)
      else if c == 'w' || c == 'W' then some (2, rest)
      else if c == 'd' || c == 'D' then some (4, rest)
      else if c == 'v' || c == 'V' then
        if rest.getD 0 '\x00' != '\x00' && rest.getD 0 '\x00' != '$' then
          none  -- Optional UID not at end of parameter
        else some (6, rest)
      else if c == 'u' || c == 'U' then some (6, rest)
      else if c == 'a' || c == 'A' then
        if rest.getD 0 '\x00' != '\x00' && rest.getD 0 '\x00' != '$' then
          none  -- ASCII not at end of parameter
        else some (32, rest)
      else if c == '#' then
        let num_chars := min (rest.takeWhile isHexDigitChar).length 17
        if num_chars > 16 then none  -- Integer literal too big
        else some (num_chars / 2 + num_chars % 2, (rest.drop num_chars).drop 1)
      else if c == '$' then
        if rest.getD 0 '\x00' != '\x00' then none  -- Improper end anchor
        else some (0, rest)
      else none  -- Invalid character in format string
    match step with
    | none => 0
    | some (field_size, rest') =>
      if param_size + field_size > 231 then 0  -- Parameter is too big
      else rdm_pd_get_size_go fuel rest' (param_size + field_size)

def rdm_pd_get_size (fmt : List Char) : Nat :=
  rdm_pd_get_size_go (fmt.length + 1) fmt 0

/-- True when the six source bytes form the null UID (`rdm_uid_is_null`):
manufacturer id and device id both zero. -/
def uidIsNullBytes (src : List Nat) : Bool :=
  ((List.range 6).map (fun i => src.getD i 0)).all (· == 0)

/-- `strnlen(source, 32)`. -/
def strnlen32 (src : List Nat) : Nat :=
  min (src.takeWhile (fun b => b ≠ 0)).length 32

/-- One pass of the inner field loop of `rdm_pd_encode`: encodes one
parameter instance, returning the bytes written to the destination and
the number of source bytes the pointer arithmetic consumed.  A `'$'`
(or an absent optional UID when `encode_nulls` is false) breaks the
loop; in the `'#'` case the format pointer skips the literal plus one
terminator character, and `source` is still advanced by the field size.
The fuel argument only serves structural termination; every step strictly
shortens the format list, so `fmt.length + 1` is always enough. -/
def pdEncodeOnceGo (encode_nulls : Bool) : Nat → List Char → List Nat →
    List Nat × Nat
  | 0, _, _ => ([], 0)
  | _ + 1, [], _ => ([], 0)
  | fuel + 1, c :: rest, src =>
    if c == 'b' || c == 'B' then
      let r := pdEncodeOnceGo encode_nulls fuel rest (src.drop 1)
      ([src.getD 0 0] ++ r.1, 1 + r.2)
    else if c == 'w' || c == 'W' then
      -- read LE uint16, bswap16, write LE: the two bytes are reversed
      let r := pdEncodeOnceGo encode_nulls fuel rest (src.drop 2)
      ([src.getD 1 0, src.getD 0 0] ++ r.1, 2 + r.2)
    else if c == 'd' || c == 'D' then
      let r := pdEncodeOnceGo encode_nulls fuel rest (src.drop 4)
      ([src.getD 3 0, src.getD 2 0, src.getD 1 0, src.getD 0 0] ++ r.1, 4 + r.2)
    else if c == 'u' || c == 'U' || c == 'v' || c == 'V' then
      if (c == 'v' || c == 'V') && !encode_nulls && uidIsNullBytes src then
        ([], 0)  -- break
      else
        -- bswap16 the manufacturer id and bswap32 the device id
        let r := pdEncodeOnceGo encode_nulls fuel rest (src.drop 6)
        ([src.getD 1 0, src.getD 0 0, src.getD 5 0, src.getD 4 0,
          src.getD 3 0, src.getD 2 0] ++ r.1, 6 + r.2)
    else if c == 'a' || c == 'A' then
      let len := strnlen32 src
      let field_size := len + (if encode_nulls then 1 else 0)
      let out := src.take len ++ (if encode_nulls then [0] else [])
      let r := pdEncodeOnceGo encode_nulls fuel rest (src.drop field_size)
      (out ++ r.1, field_size + r.2)
    else if c == '#' then
      let ds := rest.takeWhile isHexDigitChar
      let temp := hexValue ds
      let field_size := ds.length / 2 + ds.length % 2
      let out := (List.range field_size).map
        (fun i => (temp >>> (8 * (field_size - 1 - i))) % 256)
      let r := pdEncodeOnceGo encode_nulls fuel ((rest.drop ds.length).drop 1)
        (src.drop field_size)
      (out ++ r.1, field_size + r.2)
    else ([], 0)  -- '$' breaks; other characters are unreachable

def pdEncodeOnce (encode_nulls : Bool) (fmt : List Char) (src : List Nat) :
    List Nat × Nat :=
  pdEncodeOnceGo encode_nulls (fmt.length + 1) fmt src

/-- Outer instance loop of `rdm_pd_encode`. -/
def pdEncodeMany (encode_nulls : Bool) (fmt : List Char) :
    Nat → List Nat → List Nat
  | 0, _ => []
  | n + 1, src =>
    let r := pdEncodeOnce encode_nulls fmt src
    r.1 ++ pdEncodeMany encode_nulls fmt n (src.drop r.2)

/-- `rdm_pd_encode(destination, len, format, source, encode_nulls)`:
returns the bytes written and the written count.  The instance count
switches on `format[strlen(format)]` — the NUL terminator itself — so the
singleton cases `'$'`/`'a'`/`'v'` are never selected and the default
branch computes `len / format_size` when `format_size < len`, else 0. -/
def rdm_pd_encode (len : Nat) (fmt : List Char) (src : List Nat)
    (encode_nulls : Bool) : List Nat × Nat :=
  let format_size := rdm_pd_get_size fmt
  let num_params :=
    match fmt.getD fmt.length '\x00' with
    | '$' | 'a' | 'A' | 'v' | 'V' => 1  -- Parameter is singleton
    | _ => if format_size < len then len / format_size else 0
  let out := pdEncodeMany encode_nulls fmt num_params src
  (out, out.length)

def rdm_pd_serialize (len : Nat) (fmt : List Char) (src : List Nat) :
    List Nat × Nat :=
  rdm_pd_encode len fmt src false

def rdm_pd_deserialize (len : Nat) (fmt : List Char) (src : List Nat) :
    List Nat × Nat :=
  rdm_pd_encode len fmt src true

/-- C3: the serialize/deserialize round trip fails on singleton formats.
`rdm_pd_encode` switches on `format[strlen(format)]`, which is always the
NUL terminator (pd.c:637), so the `'$'`/`'a'`/`'v'` singleton cases are
dead code; for the one-byte singleton format "b$" and its exactly-sized
one-byte buffer the default branch computes zero instances
(`format_size < len` is false), serialization writes nothing and returns
0, and deserializing the serialized output cannot return the original
buffer. -/
theorem c3_singleton_roundtrip_broken :
    rdm_pd_serialize 1 ['b', '$'] [7] = ([], 0) ∧
    rdm_pd_deserialize 1 ['b', '$'] (rdm_pd_serialize 1 ['b', '$'] [7]).1 ≠
      ([7], 1) := by
  constructor
  · rfl
  · decide

/-! ## Discovery tree search: interval split (src/src/esp_rdm.c)

`rdm_discover_with_callback` keeps an explicit stack of
`rdm_disc_unique_branch_t` intervals.  A pop is `&stack[--stack_size]`, so
the popped branch aliases the slot just vacated; the split writes only the
`lower_bound` of that slot (its `upper_bound` is the residual upper bound
of the popped branch) and then writes both bounds of the next slot.
`rdm_uid_t` is a 64-bit unsigned integer in this version of the source. -/

structure DiscBranch where
  lower_bound : Nat
  upper_bound : Nat
  deriving DecidableEq, Repr

/-- The discovery instruction stack: the 49-entry array together with
`stack_size`.  Residual slot contents above `size` matter because the
split reuses them. -/
structure DiscStack where
  slots : Nat → DiscBranch
  size : Nat

/-- `rdm_disc_unique_branch_t *branch = &stack[--stack_size];` -/
def discPop (s : DiscStack) : DiscBranch × DiscStack :=
  (s.slots (s.size - 1), { s with size := s.size - 1 })

/-- The "Recursively search the next two RDM address spaces" block
(esp_rdm.c lines 328-341), applied to a stack from which `branch` has just
been popped (so `branch` aliases slot `size`):
`mid = (lower_bound + upper_bound) / 2` in 64-bit arithmetic;
`stack[stack_size].lower_bound = mid + 1; ++stack_size;` then
`stack[stack_size] = {lower_bound, mid}; ++stack_size;`. -/
def discSplitStep (s : DiscStack) : DiscStack :=
  let size1 := s.size - 1
  let branch := s.slots size1
  let lower_bound := branch.lower_bound
  let mid := ((lower_bound + branch.upper_bound) % 2 ^ 64) / 2
  let slots1 := fun i =>
    if i = size1 then { s.slots size1 with lower_bound := (mid + 1) % 2 ^ 64 }
    else s.slots i
  let slots2 := fun i =>
    if i = size1 + 1 then
      { lower_bound := lower_bound, upper_bound := mid : DiscBranch }
    else slots1 i
  { slots := slots2, size := size1 + 2 }

/-- C4: when the discovery loop splits a popped interval `[lo, hi]` with
`lo < hi`, it computes `mid = (lo + hi) / 2` and pushes `[mid + 1, hi]`
first and `[lo, mid]` second: after the split the two topmost stack slots
hold exactly those bounds (the upper half's `hi` being the residual upper
bound of the popped slot), the stack grows by one net entry, and the next
pop yields the lower half `[lo, mid]`.  The no-overflow hypothesis holds
in every run since both bounds stay at or below the 48-bit RDM_MAX_UID. -/
theorem c4_disc_split_push_order (s : DiscStack) (lo hi : Nat)
    (hsz : 0 < s.size) (hpop : s.slots (s.size - 1) = ⟨lo, hi⟩)
    (hlt : lo < hi) (hof : lo + hi < 2 ^ 64) :
    (discSplitStep s).size = s.size + 1 ∧
    (discSplitStep s).slots ((discSplitStep s).size - 2) =
      ⟨(lo + hi) / 2 + 1, hi⟩ ∧
    (discSplitStep s).slots ((discSplitStep s).size - 1) =
      ⟨lo, (lo + hi) / 2⟩ ∧
    (discPop (discSplitStep s)).1 = ⟨lo, (lo + hi) / 2⟩ := by
  have hmod : (lo + hi) % 2 ^ 64 = lo + hi := Nat.mod_eq_of_lt hof
  have hmidlt : (lo + hi) / 2 < 2 ^ 63 := by
    rw [Nat.div_lt_iff_lt_mul (by norm_num)]
    omega
  have hmid1 : ((lo + hi) / 2 + 1) % 2 ^ 64 = (lo + hi) / 2 + 1 :=
    Nat.mod_eq_of_lt (by omega)
  have hsize : (discSplitStep s).size = s.size + 1 := by
    simp only [discSplitStep]
    omega
  refine ⟨hsize, ?_, ?_, ?_⟩
  · rw [hsize]
    simp only [discSplitStep, hpop, hmod, hmid1]
    have hc1 : ¬(s.size + 1 - 2 = s.size - 1 + 1) := by omega
    have hc2 : s.size + 1 - 2 = s.size - 1 := by omega
    rw [if_neg hc1, if_pos hc2]
  · rw [hsize]
    simp only [discSplitStep, hpop, hmod]
    have hc1 : s.size + 1 - 1 = s.size - 1 + 1 := by omega
    rw [if_pos hc1]
  · simp only [discPop]
    rw [hsize]
    simp only [discSplitStep, hpop, hmod]
    have hc1 : s.size + 1 - 1 = s.size - 1 + 1 := by omega
    rw [if_pos hc1]

/-- Witness for C4 at a concrete stack holding the single interval
`[0, 9]`: the split yields slots `[5, 9]` then `[0, 4]` and the next pop
returns `[0, 4]`. -/
theorem c4_disc_split_push_order_witness :
    (discSplitStep ⟨fun _ => ⟨0, 9⟩, 1⟩).size = 1 + 1 ∧
    (discSplitStep ⟨fun _ => ⟨0, 9⟩, 1⟩).slots
      ((discSplitStep ⟨fun _ => ⟨0, 9⟩, 1⟩).size - 2) = ⟨(0 + 9) / 2 + 1, 9⟩ ∧
    (discSplitStep ⟨fun _ => ⟨0, 9⟩, 1⟩).slots
      ((discSplitStep ⟨fun _ => ⟨0, 9⟩, 1⟩).size - 1) = ⟨0, (0 + 9) / 2⟩ ∧
    (discPop (discSplitStep ⟨fun _ => ⟨0, 9⟩, 1⟩)).1 = ⟨0, (0 + 9) / 2⟩ :=
  c4_disc_split_push_order ⟨fun _ => ⟨0, 9⟩, 1⟩ 0 9 (by decide) rfl
    (by decide) (by decide)

/-! ## Timing clamps (src/unnamed/part_000: dmx_set_baud_rate,
dmx_set_break_len, dmx_set_mab_len)

Modelled from the spec: the clamp bound macros live in a header that is
not part of the source snapshot; the spec's timing windows give
`BREAK ∈ [92, 1000000] μs`, `MAB ∈ [12, 1000000] μs`,
`baud ∈ [245000, 255000]`. -/

def DMX_BREAK_LEN_MIN_US : Nat := 92

def DMX_BREAK_LEN_MAX_US : Nat := 1000000

def DMX_MAB_LEN_MIN_US : Nat := 12

def DMX_MAB_LEN_MAX_US : Nat := 1000000

def DMX_BAUD_RATE_MIN : Nat := 245000

def DMX_BAUD_RATE_MAX : Nat := 255000

/-- The timing fields of `dmx_driver_t` touched by the clamp setters.
`baud_rate` stands for the rate programmed into the UART divisor. -/
structure DmxTimingState where
  break_len : Nat
  mab_len : Nat
  baud_rate : Nat
  deriving DecidableEq, Repr

/-- `dmx_set_break_len`: the two `DMX_CHECK`s (valid port and installed
driver) return 0 without touching state; otherwise the request is clamped
into the DMX specification window, stored, and returned. -/
def dmx_set_break_len (checks_pass : Bool) (s : DmxTimingState)
    (break_len : Nat) : Nat × DmxTimingState :=
  if !checks_pass then (0, s)
  else
    let break_len :=
      if break_len < DMX_BREAK_LEN_MIN_US then DMX_BREAK_LEN_MIN_US
      else if break_len > DMX_BREAK_LEN_MAX_US then DMX_BREAK_LEN_MAX_US
      else break_len
    (break_len, { s with break_len := break_len })

/-- `dmx_set_mab_len`, as `dmx_set_break_len`. -/
def dmx_set_mab_len (checks_pass : Bool) (s : DmxTimingState)
    (mab_len : Nat) : Nat × DmxTimingState :=
  if !checks_pass then (0, s)
  else
    let mab_len :=
      if mab_len < DMX_MAB_LEN_MIN_US then DMX_MAB_LEN_MIN_US
      else if mab_len > DMX_MAB_LEN_MAX_US then DMX_MAB_LEN_MAX_US
      else mab_len
    (mab_len, { s with mab_len := mab_len })

/-- `dmx_set_baud_rate` (its only `DMX_CHECK` is the port-number check). -/
def dmx_set_baud_rate (checks_pass : Bool) (s : DmxTimingState)
    (baud_rate : Nat) : Nat × DmxTimingState :=
  if !checks_pass then (0, s)
  else
    let baud_rate :=
      if baud_rate < DMX_BAUD_RATE_MIN then DMX_BAUD_RATE_MIN
      else if baud_rate > DMX_BAUD_RATE_MAX then DMX_BAUD_RATE_MAX
      else baud_rate
    (baud_rate, { s with baud_rate := baud_rate })

/-- C5: on an installed port (argument checks pass) each setter clamps the
request to its window, never signals an error (the returned value is the
in-window applied value, and the error return 0 is outside every window),
stores the clamped value, and returns it. -/
theorem c5_timing_setters_clamp (s : DmxTimingState) (req : Nat) :
    ((dmx_set_break_len true s req).1 =
        max DMX_BREAK_LEN_MIN_US (min req DMX_BREAK_LEN_MAX_US) ∧
      DMX_BREAK_LEN_MIN_US ≤ (dmx_set_break_len true s req).1 ∧
      (dmx_set_break_len true s req).1 ≤ DMX_BREAK_LEN_MAX_US ∧
      (dmx_set_break_len true s req).2 =
        { s with break_len := (dmx_set_break_len true s req).1 }) ∧
    ((dmx_set_mab_len true s req).1 =
        max DMX_MAB_LEN_MIN_US (min req DMX_MAB_LEN_MAX_US) ∧
      DMX_MAB_LEN_MIN_US ≤ (dmx_set_mab_len true s req).1 ∧
      (dmx_set_mab_len true s req).1 ≤ DMX_MAB_LEN_MAX_US ∧
      (dmx_set_mab_len true s req).2 =
        { s with mab_len := (dmx_set_mab_len true s req).1 }) ∧
    ((dmx_set_baud_rate true s req).1 =
        max DMX_BAUD_RATE_MIN (min req DMX_BAUD_RATE_MAX) ∧
      DMX_BAUD_RATE_MIN ≤ (dmx_set_baud_rate true s req).1 ∧
      (dmx_set_baud_rate true s req).1 ≤ DMX_BAUD_RATE_MAX ∧
      (dmx_set_baud_rate true s req).2 =
        { s with baud_rate := (dmx_set_baud_rate true s req).1 }) := by
  simp only [dmx_set_break_len, dmx_set_mab_len, dmx_set_baud_rate,
    DMX_BREAK_LEN_MIN_US, DMX_BREAK_LEN_MAX_US, DMX_MAB_LEN_MIN_US,
    DMX_MAB_LEN_MAX_US, DMX_BAUD_RATE_MIN, DMX_BAUD_RATE_MAX,
    Bool.not_true, Bool.false_eq_true, if_false]
  refine ⟨?_, ?_, ?_⟩ <;> split_ifs with h1 h2 <;>
    exact ⟨by omega, by omega, by omega, by trivial⟩

/-! ## RDM device UID (src/src/esp_rdm.c rdm_get_uid and
src/unnamed/part_000 dmx_driver_install)

`rdm_get_uid` stores the UID lazily in the per-port driver
(`driver->rdm.uid`); `dmx_driver_install` initialises the process-wide
`rdm_device_uid` once, at the first install.  Modelled from the spec:
`RDM_DEFAULT_MAN_ID` / `RDM_UID_MANUFACTURER_ID` is 0x05e0 (the value in
dmx/struct.h when no Kconfig override is set); `bswap32` reverses the
four bytes of a 32-bit value. -/

def RDM_DEFAULT_MAN_ID : Nat := 0x05e0

def bswap32 (x : Nat) : Nat :=
  let y := x % 2 ^ 32
  ((y % 256) <<< 24) ||| (((y >>> 8) % 256) <<< 16) |||
    (((y >>> 16) % 256) <<< 8) ||| (y >>> 24)

/-- Per-port lazily initialised UIDs (`driver->rdm.uid` of each installed
driver); 0 means not yet derived. -/
structure RdmUidState where
  uids : Nat → Nat

/-- `rdm_get_uid(dmx_num)` (esp_rdm.c lines 24-46): if the port's stored
UID is 0, derive it as
`((bswap32(mac.device) + dmx_num) & 0xffffffff) | RDM_DEFAULT_MAN_ID << 32`
and store it; return the stored UID.  `mac_device` is the low 32 bits of
the `device` field filled from the efuse MAC. -/
def rdm_get_uid (mac_device : Nat) (s : RdmUidState) (dmx_num : Nat) :
    Nat × RdmUidState :=
  if s.uids dmx_num == 0 then
    let uid := ((bswap32 mac_device + dmx_num) % 2 ^ 32) |||
      (RDM_DEFAULT_MAN_ID <<< 32)
    (uid, ⟨fun p => if p = dmx_num then uid else s.uids p⟩)
  else (s.uids dmx_num, s)

/-- The process-wide UID variables of src/unnamed/part_000:
`rdm_device_uid` (a man id / dev id pair) and `rdm_binding_port`. -/
structure RdmGlobalUid where
  man_id : Nat
  dev_id : Nat
  binding_port : Nat
  deriving DecidableEq, Repr

/-- `rdm_uid_is_null(&rdm_device_uid)`. -/
def rdm_uid_is_null (g : RdmGlobalUid) : Bool :=
  g.man_id == 0 && g.dev_id == 0

/-- The "Initialize RDM UID" block of `dmx_driver_install`
(src/unnamed/part_000 lines 257-270): only when the process-wide UID is
still null, set its manufacturer id, derive the device id as
`bswap32(*(uint32_t *)(mac + 2))` from the six-byte efuse MAC, and record
the installing port as the binding port. -/
def dmx_driver_install_uid_init (g : RdmGlobalUid) (dmx_num : Nat)
    (mac : List Nat) : RdmGlobalUid :=
  if rdm_uid_is_null g then
    let dev_id := bswap32 (mac.getD 2 0 ||| (mac.getD 3 0 <<< 8) |||
      (mac.getD 4 0 <<< 16) ||| (mac.getD 5 0 <<< 24))
    { man_id := RDM_DEFAULT_MAN_ID, dev_id := dev_id,
      binding_port := dmx_num }
  else g

/-- C8 counterexample: with the per-port drivers freshly installed (all
stored UIDs 0) and MAC device word 0, `rdm_get_uid` on port 0 and
`rdm_get_uid` on port 1 return different UIDs, refuting "for any two
installed ports p and q, rdm_get_uid(p) equals rdm_get_uid(q)":
the derivation adds the port number to the device id. -/
theorem c8_uid_counterexample :
    (rdm_get_uid 0 ⟨fun _ => 0⟩ 0).1 ≠ (rdm_get_uid 0 ⟨fun _ => 0⟩ 1).1 := by
  decide

/-- A number below `2 ^ 32` is unchanged in the low 32 bits after `|||`
with a value shifted left by 32. -/
theorem lor_shift32_mod (a m : Nat) (ha : a < 2 ^ 32) :
    (a ||| (m <<< 32)) % 2 ^ 32 = a := by
  apply Nat.eq_of_testBit_eq
  intro i
  rcases lt_or_le i 32 with hi | hi
  · rw [Nat.testBit_mod_two_pow, Nat.testBit_lor, Nat.testBit_shiftLeft]
    simp [hi, Nat.not_le_of_lt hi]
  · rw [Nat.testBit_mod_two_pow]
    have : a.testBit i = false :=
      Nat.testBit_eq_false_of_lt (lt_of_lt_of_le ha
        (Nat.pow_le_pow_right (by norm_num) hi))
    simp [Nat.not_lt_of_le hi, this]

/-- C8 as amended: the UID reported by `rdm_get_uid` for a port is derived
lazily at the port's *first* `rdm_get_uid` call (not at install) as
manufacturer id 0x05e0 in the high 16 bits and
`(bswap32(mac_device) + dmx_num) mod 2^32` — the MAC-derived word *plus
the port number* — in the low 32 bits; repeated calls on the same port
return the same value; two distinct ports (port numbers below
DMX_NUM_MAX ≤ 2^32) report *different* UIDs.  Separately,
`dmx_driver_install` derives the process-wide `rdm_device_uid` from the
MAC exactly once, at the first install: a second install leaves it and
the binding port unchanged. -/
theorem c8_uid_per_port_amended (mac_device : Nat) (s : RdmUidState)
    (p q : Nat) (hp0 : s.uids p = 0) (hq0 : s.uids q = 0)
    (hpq : p ≠ q) (hp32 : p < 2 ^ 32) (hq32 : q < 2 ^ 32)
    (g : RdmGlobalUid) (n n' : Nat) (mac mac' : List Nat)
    (hnull : rdm_uid_is_null g = true) :
    ((rdm_get_uid mac_device s p).1 =
      ((bswap32 mac_device + p) % 2 ^ 32) ||| (RDM_DEFAULT_MAN_ID <<< 32)) ∧
    (rdm_get_uid mac_device (rdm_get_uid mac_device s p).2 p =
      ((rdm_get_uid mac_device s p).1, (rdm_get_uid mac_device s p).2)) ∧
    (rdm_get_uid mac_device s p).1 ≠ (rdm_get_uid mac_device s q).1 ∧
    (rdm_uid_is_null (dmx_driver_install_uid_init g n mac) = false ∧
      dmx_driver_install_uid_init
        (dmx_driver_install_uid_init g n mac) n' mac' =
        dmx_driver_install_uid_init g n mac) := by
  have huid_ne : ∀ r : Nat,
      ((bswap32 mac_device + r) % 2 ^ 32) ||| (RDM_DEFAULT_MAN_ID <<< 32) ≠
        0 := by
    intro r h
    have h37 := congrArg (fun x => Nat.testBit x 37) h
    simp only [RDM_DEFAULT_MAN_ID, Nat.testBit_lor, Nat.testBit_shiftLeft,
      Nat.zero_testBit] at h37
    norm_num at h37
    exact absurd h37.2 (by decide)
  have hcall : ∀ r : Nat, s.uids r = 0 → rdm_get_uid mac_device s r =
      (((bswap32 mac_device + r) % 2 ^ 32) ||| (RDM_DEFAULT_MAN_ID <<< 32),
        ⟨fun x => if x = r then
            ((bswap32 mac_device + r) % 2 ^ 32) |||
              (RDM_DEFAULT_MAN_ID <<< 32)
          else s.uids x⟩) := by
    intro r hr
    simp [rdm_get_uid, hr]
  refine ⟨by rw [hcall p hp0], ?_, ?_, ?_⟩
  · -- idempotence: the stored UID is nonzero (the manufacturer bits are
    -- set), so the second call takes the already-initialised branch
    rw [hcall p hp0]
    simp only [rdm_get_uid]
    rw [if_neg]
    · simp
    · have hh := huid_ne p
      norm_num at hh ⊢
      exact hh
  · -- distinct ports give distinct UIDs: compare the low 32 bits
    rw [hcall p hp0, hcall q hq0]
    intro h
    simp only [Prod.fst] at h
    have hp' : ((bswap32 mac_device + p) % 2 ^ 32 |||
        RDM_DEFAULT_MAN_ID <<< 32) % 2 ^ 32 =
        (bswap32 mac_device + p) % 2 ^ 32 :=
      lor_shift32_mod _ _ (Nat.mod_lt _ (by norm_num))
    have hq' : ((bswap32 mac_device + q) % 2 ^ 32 |||
        RDM_DEFAULT_MAN_ID <<< 32) % 2 ^ 32 =
        (bswap32 mac_device + q) % 2 ^ 32 :=
      lor_shift32_mod _ _ (Nat.mod_lt _ (by norm_num))
    have hm : (bswap32 mac_device + p) % 2 ^ 32 =
        (bswap32 mac_device + q) % 2 ^ 32 := by
      rw [← hp', ← hq', h]
    omega
  · constructor
    · simp only [dmx_driver_install_uid_init, hnull, if_true]
      simp [rdm_uid_is_null, RDM_DEFAULT_MAN_ID]
    · simp only [dmx_driver_install_uid_init, hnull, if_true]
      simp [rdm_uid_is_null, RDM_DEFAULT_MAN_ID]

/-- Witness for C8's amended theorem at MAC word 0x12345678, fresh
per-port state, ports 0 and 1, and a null process-wide UID. -/
theorem c8_uid_per_port_amended_witness :
    ((rdm_get_uid 0x12345678 ⟨fun _ => 0⟩ 0).1 =
      ((bswap32 0x12345678 + 0) % 2 ^ 32) ||| (RDM_DEFAULT_MAN_ID <<< 32)) ∧
    (rdm_get_uid 0x12345678 (rdm_get_uid 0x12345678 ⟨fun _ => 0⟩ 0).2 0 =
      ((rdm_get_uid 0x12345678 ⟨fun _ => 0⟩ 0).1,
        (rdm_get_uid 0x12345678 ⟨fun _ => 0⟩ 0).2)) ∧
    (rdm_get_uid 0x12345678 ⟨fun _ => 0⟩ 0).1 ≠
      (rdm_get_uid 0x12345678 ⟨fun _ => 0⟩ 1).1 ∧
    (rdm_uid_is_null (dmx_driver_install_uid_init ⟨0, 0, 0⟩ 0
        [1, 2, 3, 4, 5, 6]) = false ∧
      dmx_driver_install_uid_init
        (dmx_driver_install_uid_init ⟨0, 0, 0⟩ 0 [1, 2, 3, 4, 5, 6]) 1
          [9, 9, 9, 9, 9, 9] =
        dmx_driver_install_uid_init ⟨0, 0, 0⟩ 0 [1, 2, 3, 4, 5, 6]) :=
  c8_uid_per_port_amended 0x12345678 ⟨fun _ => 0⟩ 0 1 rfl rfl
    (by decide) (by decide) (by decide) ⟨0, 0, 0⟩ 0 1
    [1, 2, 3, 4, 5, 6] [9, 9, 9, 9, 9, 9] (by decide)

/-! ## Parameter store (src/src/rdm/utils/pd.c)

The driver state carries the registered parameter list (`params`,
insertion order; `num_parameters` is its length), the bump-allocated
parameter heap (`heap`, `pd_head`, `pd_alloc_size`), the queued-message
ring (`rdm_queue`, whose length is `rdm_queue_size`), and a `stale`
oracle giving the contents of table slots at or beyond `num_parameters`
(the C array holds indeterminate bytes there, and `rdm_pd_add_*` does
read such a slot).  `RDM_RESPONDER_NUM_PIDS_MAX` is the parameter-table
capacity (dmx/struct.h: 9 required + 25 optional);
`RDM_RESPONDER_QUEUE_SIZE_MAX` is the queue bound (dmx/struct.h). -/

def RDM_RESPONDER_NUM_PIDS_MAX : Nat := 34

def RDM_RESPONDER_QUEUE_SIZE_MAX : Nat := 64

/-- The schema fields of `rdm_pd_definition_t` that the store operations
read: allocation size, default-value size, and whether the data type is
`RDM_DS_ASCII` (which selects `strncpy` over `memcpy`). -/
structure RdmPdDef where
  alloc_size : Nat
  pdl_size : Nat
  is_ascii : Bool
  deriving DecidableEq, Repr

/-- One entry of `driver->params`: the PID, the data pointer as an offset
into the parameter heap (`none` = NULL, for deterministic parameters),
and the definition copy. -/
structure RdmPdEntry where
  pid : Nat
  data : Option Nat
  definition : RdmPdDef
  deriving DecidableEq, Repr

structure RdmDriverState where
  params : List RdmPdEntry
  stale : Nat → RdmPdEntry
  pd_alloc_size : Nat
  pd_head : Nat
  heap : List Nat
  rdm_queue : List Nat

/-- The PID search loop
`for (pdi = 0; pdi < num_parameters; ++pdi) if (params[pdi].pid == pid) break;`:
index of the first matching entry, or the parameter count when absent. -/
def pdFindIdx : List RdmPdEntry → Nat → Nat
  | [], _ => 0
  | e :: rest, pid => if e.pid == pid then 0 else pdFindIdx rest pid + 1

/-- `driver->params[i]`: the registered entry when `i` is below the
parameter count, the indeterminate residual contents otherwise. -/
def slotAt (s : RdmDriverState) (i : Nat) : RdmPdEntry :=
  match s.params.get? i with
  | some e => e
  | none => s.stale i

/-- `strncpy(dst, src, n)` viewed as the n bytes stored: the source up to
its first NUL, zero-padded to n. -/
def strncpyBytes (src : List Nat) (n : Nat) : List Nat :=
  let pre := src.takeWhile (fun b => b ≠ 0)
  pre.take n ++ List.replicate (n - pre.length) 0

/-- `memcpy(dst, src, n)` viewed as the n bytes stored. -/
def memcpyBytes (src : List Nat) (n : Nat) : List Nat :=
  src.take n ++ List.replicate (n - src.length) 0

/-- Overwrite `bytes` into the heap starting at offset `off`. -/
def heapWrite (heap : List Nat) (off : Nat) (bytes : List Nat) : List Nat :=
  heap.mapIdx fun i b =>
    if off ≤ i ∧ i < off + bytes.length then bytes.getD (i - off) 0 else b

/-- The default-value initialisation of `rdm_pd_add_new`: `strncpy` for
ASCII data, zero fill for a NULL `init_value`, `memcpy` otherwise. -/
def pdInitBytes (d : RdmPdDef) (init_value : Option (List Nat)) : List Nat :=
  if d.is_ascii then strncpyBytes (init_value.getD []) d.pdl_size
  else
    match init_value with
    | none => List.replicate d.pdl_size 0
    | some v => memcpyBytes v d.pdl_size

/-- `rdm_pd_add_new` (pd.c lines 16-85), for the root sub-device: search
the table, bail out when the slot at the found index holds the PID (the
read happens even when the index equals the parameter count), bail out on
a full table, reserve heap space, write the default value, append the
entry.  Returns the allocated heap offset or `none` (the C NULL). -/
def rdm_pd_add_new (s : RdmDriverState) (pid : Nat) (d : RdmPdDef)
    (init_value : Option (List Nat)) : Option Nat × RdmDriverState :=
  let pdi := pdFindIdx s.params pid
  if (slotAt s pdi).pid == pid then (none, s)  -- Parameter already exists
  else if pdi == RDM_RESPONDER_NUM_PIDS_MAX then
    (none, s)  -- No space for new parameter definitions
  else
    let pdl_available := s.pd_alloc_size - s.pd_head
    if d.alloc_size ≤ pdl_available then
      let pd := s.pd_head
      (some pd,
        { s with
            pd_head := s.pd_head + d.alloc_size,
            heap := heapWrite s.heap pd (pdInitBytes d init_value),
            params := s.params ++ [⟨pid, some pd, d⟩] })
    else (none, s)  -- No more reservable parameter data space

/-- `rdm_pd_add_alias` (pd.c lines 87-151): as `rdm_pd_add_new`, but the
data pointer is `params[apdi].data + offset` for the aliased PID (a NULL
aliased pointer is modelled as offset 0); fails when the aliased PID is
not declared or its allocation is smaller than the offset. -/
def rdm_pd_add_alias (s : RdmDriverState) (pid : Nat) (d : RdmPdDef)
    (alias_pid offset : Nat) : Option Nat × RdmDriverState :=
  let pdi := pdFindIdx s.params pid
  if (slotAt s pdi).pid == pid then (none, s)  -- Parameter already exists
  else if pdi == RDM_RESPONDER_NUM_PIDS_MAX then
    (none, s)  -- No space for new parameter definitions
  else
    let apdi := pdFindIdx s.params alias_pid
    if (slotAt s apdi).pid != alias_pid then
      (none, s)  -- The alias has not been declared
    else if (slotAt s apdi).definition.alloc_size < offset then
      (none, s)  -- The alias offset is larger than the parameter pdl_size
    else
      let pd := (slotAt s apdi).data.getD 0 + offset
      (some pd, { s with params := s.params ++ [⟨pid, some pd, d⟩] })

/-- `rdm_pd_add_deterministic` (pd.c lines 153-199): as `rdm_pd_add_new`
but with no data allocation (`data = NULL`). -/
def rdm_pd_add_deterministic (s : RdmDriverState) (pid : Nat)
    (d : RdmPdDef) : Bool × RdmDriverState :=
  let pdi := pdFindIdx s.params pid
  if (slotAt s pdi).pid == pid then (false, s)  -- Parameter already exists
  else if pdi == RDM_RESPONDER_NUM_PIDS_MAX then
    (false, s)  -- No space for new parameter definitions
  else
    (true, { s with params := s.params ++ [⟨pid, none, d⟩] })

/-- The search loop of `rdm_pd_set`: first registered entry with the PID
(this loop stays strictly below the parameter count). -/
def pdFind : List RdmPdEntry → Nat → Option RdmPdEntry
  | [], _ => none
  | e :: rest, pid => if e.pid == pid then some e else pdFind rest pid

/-- `rdm_pd_set` (pd.c lines 326-367): returns 0 early for size 0, scans
the registered parameters for the PID, breaks with 0 when the entry's
data pointer is NULL, otherwise copies `size` bytes (`strncpy` for ASCII,
`memcpy` otherwise) into the parameter's storage and returns `size`. -/
def rdm_pd_set (s : RdmDriverState) (pid : Nat) (data : List Nat)
    (size : Nat) : Nat × RdmDriverState :=
  if size == 0 then (0, s)  -- Return early if nothing to write
  else
    match pdFind s.params pid with
    | none => (0, s)
    | some e =>
      match e.data with
      | none => (0, s)  -- Parameter data does not exist
      | some off =>
        let bytes :=
          if e.definition.is_ascii then strncpyBytes data size
          else memcpyBytes data size
        (size, { s with heap := heapWrite s.heap off bytes })

/-- `rdm_pd_set_and_queue` (pd.c lines 369-401): perform the set; when
bytes were written and the ring is not full and the PID is not already
queued, append it at index `rdm_queue_size`. -/
def rdm_pd_set_and_queue (s : RdmDriverState) (pid : Nat) (data : List Nat)
    (size : Nat) : Nat × RdmDriverState :=
  let r := rdm_pd_set s pid data size
  if r.1 > 0 then
    let s1 := r.2
    if s1.rdm_queue.length < RDM_RESPONDER_QUEUE_SIZE_MAX then
      if s1.rdm_queue.contains pid then (r.1, s1)
      else (r.1, { s1 with rdm_queue := s1.rdm_queue ++ [pid] })
    else (r.1, s1)
  else r

/-- The duplicate-PID check performed after the search loop of each
`rdm_pd_add_*` (`if (driver->params[pdi].pid == pid)`), with
Option-returning indexing: `none` marks a read at or beyond the number of
registered parameters. -/
def rdm_pd_dup_check (s : RdmDriverState) (pid : Nat) : Option Bool :=
  match s.params.get? (pdFindIdx s.params pid) with
  | some e => some (e.pid == pid)
  | none => none

/-- A freshly installed driver: no parameters, the minimum 53-byte heap,
an empty message queue, and arbitrary residual slot contents. -/
def pdEmptyState : RdmDriverState :=
  { params := [], stale := fun _ => ⟨0, none, ⟨0, 0, false⟩⟩,
    pd_alloc_size := 53, pd_head := 0, heap := List.replicate 53 0,
    rdm_queue := [] }

theorem pdFindIdx_mem {l : List RdmPdEntry} {pid : Nat}
    (h : pid ∈ l.map (·.pid)) :
    ∃ e, l.get? (pdFindIdx l pid) = some e ∧ e.pid = pid := by
  induction l with
  | nil => simp at h
  | cons e rest ih =>
    by_cases he : e.pid = pid
    · exact ⟨e, by simp [pdFindIdx, he], he⟩
    · have h' : pid ∈ rest.map (·.pid) := by
        rcases List.mem_cons.mp h with h1 | h1
        · exact absurd h1.symm he
        · exact h1
      obtain ⟨f, hf, hfp⟩ := ih h'
      exact ⟨f, by simpa [pdFindIdx, he] using hf, hfp⟩

theorem pdFindIdx_not_mem {l : List RdmPdEntry} {pid : Nat}
    (h : pid ∉ l.map (·.pid)) : pdFindIdx l pid = l.length := by
  induction l with
  | nil => rfl
  | cons e rest ih =>
    simp only [List.map_cons, List.mem_cons] at h
    push_neg at h
    have hne : ¬e.pid = pid := fun hh => h.1 hh.symm
    simp [pdFindIdx, hne, ih h.2]

theorem pdFind_not_mem {l : List RdmPdEntry} {pid : Nat}
    (h : pid ∉ l.map (·.pid)) : pdFind l pid = none := by
  induction l with
  | nil => rfl
  | cons e rest ih =>
    simp only [List.map_cons, List.mem_cons] at h
    push_neg at h
    have hne : ¬e.pid = pid := fun hh => h.1 hh.symm
    simp [pdFind, hne, ih h.2]

/-- C9: the duplicate-PID check that each `rdm_pd_add_*` performs after
its search loop reads `params[pdi]` even when `pdi` equals the number of
registered parameters (pd.c line 46 and the analogous lines of
`rdm_pd_add_alias` / `rdm_pd_add_deterministic`): in the Option-indexed
embedding, adding PID 1 to a freshly installed (empty) parameter table
reaches the out-of-bounds branch — the search loop returns the parameter
count itself as the index. -/
theorem c9_dup_check_reads_out_of_bounds :
    rdm_pd_dup_check pdEmptyState 1 = none ∧
    pdFindIdx pdEmptyState.params 1 = pdEmptyState.params.length := by
  exact ⟨rfl, rfl⟩

/-- C6: a parameter add with a PID already present in the table fails
(returns NULL / false) and leaves the whole driver state — table, count,
heap head — unchanged; and every successful add appends its PID at the
end of the table, so the table lists PIDs in insertion order. -/
theorem c6_pd_add_order_and_duplicates (s : RdmDriverState)
    (pid alias_pid offset : Nat) (d : RdmPdDef) (iv : Option (List Nat)) :
    (pid ∈ s.params.map (·.pid) →
      rdm_pd_add_new s pid d iv = (none, s) ∧
      rdm_pd_add_alias s pid d alias_pid offset = (none, s) ∧
      rdm_pd_add_deterministic s pid d = (false, s)) ∧
    (∀ pd s', rdm_pd_add_new s pid d iv = (some pd, s') →
      s'.params.map (·.pid) = s.params.map (·.pid) ++ [pid]) ∧
    (∀ pd s', rdm_pd_add_alias s pid d alias_pid offset = (some pd, s') →
      s'.params.map (·.pid) = s.params.map (·.pid) ++ [pid]) ∧
    (∀ s', rdm_pd_add_deterministic s pid d = (true, s') →
      s'.params.map (·.pid) = s.params.map (·.pid) ++ [pid]) := by
  refine ⟨?_, ?_, ?_, ?_⟩
  · intro h
    obtain ⟨e, he, hep⟩ := pdFindIdx_mem h
    have he' : s.params[pdFindIdx s.params pid]? = some e := by
      simpa using he
    have hd : ((slotAt s (pdFindIdx s.params pid)).pid == pid) = true := by
      simp [slotAt, he', hep]
    refine ⟨?_, ?_, ?_⟩ <;>
      simp [rdm_pd_add_new, rdm_pd_add_alias, rdm_pd_add_deterministic, hd]
  · intro pd s' h
    simp only [rdm_pd_add_new] at h
    split_ifs at h <;> simp_all
    obtain ⟨-, hs'⟩ := h
    rw [← hs']
    simp
  · intro pd s' h
    simp only [rdm_pd_add_alias] at h
    split_ifs at h <;> simp_all
    obtain ⟨-, hs'⟩ := h
    rw [← hs']
    simp
  · intro s' h
    simp only [rdm_pd_add_deterministic] at h
    split_ifs at h <;> simp_all
    rw [← h]
    simp

/-- The queued-message invariant of C7: no PID appears twice and the ring
never exceeds `RDM_RESPONDER_QUEUE_SIZE_MAX` entries. -/
def rdmQueueInv (s : RdmDriverState) : Prop :=
  s.rdm_queue.Nodup ∧ s.rdm_queue.length ≤ RDM_RESPONDER_QUEUE_SIZE_MAX

/-- `rdm_pd_set` never touches the queued-message ring. -/
theorem rdm_pd_set_queue_eq (s : RdmDriverState) (pid : Nat)
    (data : List Nat) (size : Nat) :
    (rdm_pd_set s pid data size).2.rdm_queue = s.rdm_queue := by
  simp only [rdm_pd_set]
  split
  · rfl
  · split
    · rfl
    · split <;> rfl

/-- C7: `rdm_pd_set_and_queue` appends the PID exactly when bytes were
written, the PID is absent and the ring is below its bound; in every
other case it leaves the ring unchanged; the no-duplicates bounded-size
invariant is preserved by it and by every other store operation (which
leave the ring untouched). -/
theorem c7_queue_bounded_no_duplicates (s : RdmDriverState)
    (pid size alias_pid offset : Nat) (data : List Nat) (d : RdmPdDef)
    (iv : Option (List Nat)) (hinv : rdmQueueInv s) :
    rdmQueueInv (rdm_pd_set_and_queue s pid data size).2 ∧
    ((rdm_pd_set_and_queue s pid data size).1 > 0 ∧ pid ∉ s.rdm_queue ∧
        s.rdm_queue.length < RDM_RESPONDER_QUEUE_SIZE_MAX →
      (rdm_pd_set_and_queue s pid data size).2.rdm_queue =
        s.rdm_queue ++ [pid]) ∧
    (¬((rdm_pd_set_and_queue s pid data size).1 > 0 ∧ pid ∉ s.rdm_queue ∧
        s.rdm_queue.length < RDM_RESPONDER_QUEUE_SIZE_MAX) →
      (rdm_pd_set_and_queue s pid data size).2.rdm_queue = s.rdm_queue) ∧
    (rdm_pd_set s pid data size).2.rdm_queue = s.rdm_queue ∧
    (rdm_pd_add_new s pid d iv).2.rdm_queue = s.rdm_queue ∧
    (rdm_pd_add_alias s pid d alias_pid offset).2.rdm_queue = s.rdm_queue ∧
    (rdm_pd_add_deterministic s pid d).2.rdm_queue = s.rdm_queue := by
  have hq : (rdm_pd_set s pid data size).2.rdm_queue = s.rdm_queue :=
    rdm_pd_set_queue_eq s pid data size
  have hnew : (rdm_pd_add_new s pid d iv).2.rdm_queue = s.rdm_queue := by
    simp only [rdm_pd_add_new]
    split_ifs <;> rfl
  have halias : (rdm_pd_add_alias s pid d alias_pid offset).2.rdm_queue =
      s.rdm_queue := by
    simp only [rdm_pd_add_alias]
    split_ifs <;> rfl
  have hdet : (rdm_pd_add_deterministic s pid d).2.rdm_queue =
      s.rdm_queue := by
    simp only [rdm_pd_add_deterministic]
    split_ifs <;> rfl
  rcases hr : rdm_pd_set s pid data size with ⟨w, t⟩
  have htq : t.rdm_queue = s.rdm_queue := by rw [hr] at hq; exact hq
  simp only [rdm_pd_set_and_queue, hr]
  by_cases hw : w > 0
  · simp only [hw, if_true]
    by_cases hlen : t.rdm_queue.length < RDM_RESPONDER_QUEUE_SIZE_MAX
    · simp only [hlen, if_true]
      cases hmem : t.rdm_queue.contains pid with
      | true =>
        have hmem' : pid ∈ s.rdm_queue := by
          rw [← htq]
          simpa using hmem
        simp only [if_true]
        refine ⟨⟨by rw [htq]; exact hinv.1, by rw [htq]; exact hinv.2⟩,
          ?_, fun _ => htq, htq, hnew, halias, hdet⟩
        intro hcond
        exact absurd hmem' hcond.2.1
      | false =>
        have hmem' : pid ∉ s.rdm_queue := by
          rw [← htq]
          simpa using hmem
        simp only [Bool.false_eq_true, if_false]
        rw [htq] at hlen
        refine ⟨⟨?_, ?_⟩, fun _ => by simp [htq], ?_, htq, hnew, halias,
          hdet⟩
        · simp only [htq]
          simp [List.nodup_append, hinv.1, hmem']
        · simp only [htq, List.length_append, List.length_singleton]
          omega
        · intro hcond
          exact absurd ⟨hw, hmem', hlen⟩ hcond
    · simp only [hlen, if_false]
      rw [htq] at hlen
      refine ⟨⟨by rw [htq]; exact hinv.1, by rw [htq]; exact hinv.2⟩,
        fun hcond => absurd hcond.2.2 hlen, fun _ => htq, htq, hnew, halias,
        hdet⟩
  · simp only [hw, if_false]
    refine ⟨⟨by rw [htq]; exact hinv.1, by rw [htq]; exact hinv.2⟩,
      fun hcond => hcond.1.elim, fun _ => htq, htq, hnew, halias, hdet⟩

/-- Witness for C7 on a fresh driver with one byte parameter (PID 5 backed
by heap offset 0): `rdm_pd_set_and_queue` preserves the queue invariant. -/
theorem c7_queue_bounded_no_duplicates_witness :
    rdmQueueInv (rdm_pd_set_and_queue
      { pdEmptyState with params := [⟨5, some 0, ⟨1, 1, false⟩⟩] }
      5 [7] 1).2 :=
  (c7_queue_bounded_no_duplicates
    { pdEmptyState with params := [⟨5, some 0, ⟨1, 1, false⟩⟩] }
    5 1 0 0 [7] ⟨1, 1, false⟩ none ⟨List.nodup_nil, by decide⟩).1

/-- C10: `rdm_pd_set` returns 0 and leaves the driver state (in
particular every parameter's stored data) unchanged when the size is 0,
when the PID is not registered, or when the first matching parameter has
no backing storage; and it returns the requested size exactly when it
wrote those bytes into the matching parameter's heap storage. -/
theorem c10_pd_set_semantics (s : RdmDriverState) (pid size : Nat)
    (data : List Nat) :
    (size = 0 → rdm_pd_set s pid data size = (0, s)) ∧
    (pid ∉ s.params.map (·.pid) → rdm_pd_set s pid data size = (0, s)) ∧
    (∀ e, pdFind s.params pid = some e → e.data = none →
      rdm_pd_set s pid data size = (0, s)) ∧
    ((rdm_pd_set s pid data size).1 = 0 →
      (rdm_pd_set s pid data size).2 = s) ∧
    ((rdm_pd_set s pid data size).1 ≠ 0 →
      (rdm_pd_set s pid data size).1 = size ∧
      ∃ e off, pdFind s.params pid = some e ∧ e.data = some off ∧
        (rdm_pd_set s pid data size).2 =
          { s with
              heap := heapWrite s.heap off
                  (if e.definition.is_ascii then strncpyBytes data size
                    else memcpyBytes data size) }) := by
  refine ⟨?_, ?_, ?_, ?_, ?_⟩
  · intro hsz
    simp [rdm_pd_set, hsz]
  · intro hmem
    simp [rdm_pd_set, pdFind_not_mem hmem]
  · intro e he hd
    simp [rdm_pd_set, he, hd]
  · intro h0
    by_cases hsz : size = 0
    · simp [rdm_pd_set, hsz]
    · rcases hpf : pdFind s.params pid with - | e
      · simp [rdm_pd_set, hsz, hpf]
      · rcases hd : e.data with - | off
        · simp [rdm_pd_set, hsz, hpf, hd]
        · have h1 : (rdm_pd_set s pid data size).1 = size := by
            simp [rdm_pd_set, hsz, hpf, hd]
          rw [h1] at h0
          exact absurd h0 hsz
  · intro hne
    by_cases hsz : size = 0
    · exact absurd (by simp [rdm_pd_set, hsz]) hne
    · rcases hpf : pdFind s.params pid with - | e
      · exact absurd (by simp [rdm_pd_set, hsz, hpf]) hne
      · rcases hd : e.data with - | off
        · exact absurd (by simp [rdm_pd_set, hsz, hpf, hd]) hne
        · refine ⟨by simp [rdm_pd_set, hsz, hpf, hd], e, off, rfl, hd, ?_⟩
          simp [rdm_pd_set, hsz, hpf, hd]

/-- Witness for C10: a size-0 write on the fresh driver returns 0 and
changes nothing. -/
theorem c10_pd_set_semantics_witness :
    rdm_pd_set pdEmptyState 1 [2] 0 = (0, pdEmptyState) :=
  (c10_pd_set_semantics pdEmptyState 1 0 [2]).1 rfl

/-- Witness for C6 on a driver holding exactly PID 5: a duplicate add of
PID 5 fails in all three add operations and leaves the state unchanged. -/
theorem c6_pd_add_order_and_duplicates_witness :
    rdm_pd_add_new
      { pdEmptyState with params := [⟨5, some 0, ⟨1, 1, false⟩⟩] }
      5 ⟨1, 1, false⟩ none =
      (none, { pdEmptyState with params := [⟨5, some 0, ⟨1, 1, false⟩⟩] }) ∧
    rdm_pd_add_alias
      { pdEmptyState with params := [⟨5, some 0, ⟨1, 1, false⟩⟩] }
      5 ⟨1, 1, false⟩ 5 0 =
      (none, { pdEmptyState with params := [⟨5, some 0, ⟨1, 1, false⟩⟩] }) ∧
    rdm_pd_add_deterministic
      { pdEmptyState with params := [⟨5, some 0, ⟨1, 1, false⟩⟩] }
      5 ⟨1, 1, false⟩ =
      (false, { pdEmptyState with params := [⟨5, some 0, ⟨1, 1, false⟩⟩] }) :=
  (c6_pd_add_order_and_duplicates
    { pdEmptyState with params := [⟨5, some 0, ⟨1, 1, false⟩⟩] }
    5 5 0 ⟨1, 1, false⟩ none).1 (by simp)

end EspDmx
